import Mathlib

/-!
Verification of the DDC Impact Widget SDK client (`src/widget-client.ts`).

We shallowly embed the state of `BaseWidgetClient` and its operations:
the outbound send path with its pending-message queue
(`sendMessageToWidget`, `processPendingMessages`), the inbound message
listener (`setupMessageListener`), the per-instance event registry
(`on` / `off` / `emit`, a `Map` from event name to an insertion-ordered
`Set` of handlers), the `waitFor` and `waitForReady` promise closures
(as small explicit state machines over the closure variables), `destroy`,
and the `WidgetClient` constructor validation.

Handlers are modelled as opaque identifiers (`Nat`); `emit` records which
handlers it invokes.  JavaScript `Map` and `Set` both preserve insertion
order and `Set.add` deduplicates, so the registry is an association list
of events to duplicate-free lists.
-/

/-- An allocation: a monetary amount attributed to one campaign
(`Allocation` from `@ddc/shared`). -/
structure Allocation where
  campaignIdentifier : String
  amount : Int
deriving DecidableEq, Repr

/-- Cached session data (`SessionData` from `@ddc/shared`): the session
kind discriminant and an optional embedded allocations list (the listener
reads `sessionData.allocations || []`). -/
structure SessionData where
  stype : String
  allocations : Option (List Allocation) := none
deriving DecidableEq, Repr

/-- An outbound envelope (`MessageFromParent`): a `type` discriminant plus
an opaque body standing for the rest of the payload (`secret`, `config`). -/
structure MessageFromParent where
  mtype : String
  body : String := ""
deriving DecidableEq, Repr

/-- An inbound envelope as seen by the message listener after
`isWidgetMessage` validation.  `valid` models whether `isWidgetMessage`
accepts the raw payload; the remaining fields are the duck-typed payload
fields the listener reads for each recognized `type`. -/
structure InboundMsg where
  valid : Bool := true
  mtype : String
  sessionId : String := ""
  version : String := ""
  sessionData : Option SessionData := none
  allocations : List Allocation := []
  totalAmount : Int := 0
  width : Option Nat := none
  height : Option Nat := none
deriving DecidableEq, Repr

/-- The error taxonomy (`WidgetErrors` factory from `@ddc/shared`). -/
inductive WErr where
  | invalidConfig (msg : String)
  | containerNotFound (container : String)
  | mountFailed (msg : String)
  | timeoutErr (operation : String) (ms : Nat)
deriving DecidableEq, Repr

/-- The mutable fields of `BaseWidgetClient`, plus two traces that record
observable effects: `sent` (messages actually posted via
`contentWindow.postMessage`) and `invoked` (event/handler pairs invoked by
`emit`).  `hasIframeCW` models `iframe !== null && iframe.contentWindow`
being available; `readyTimeoutActive` models `readyTimeoutId !== null`. -/
structure ClientState where
  hasIframeCW : Bool
  isWidgetReady : Bool
  pendingMessages : List MessageFromParent
  sessionData : Option SessionData
  currentAllocations : List Allocation
  eventHandlers : List (String × List Nat)
  messageListenerAttached : Bool
  readyTimeoutActive : Bool
  styleWidth : Option Nat
  styleHeight : Option Nat
  sent : List MessageFromParent
  invoked : List (String × Nat)
deriving DecidableEq, Repr

/-- `isReady()`: returns the readiness flag. -/
def ClientState.isReady (st : ClientState) : Bool :=
  st.isWidgetReady

/-- `getSessionData()`: returns the cached session data. -/
def ClientState.getSessionData (st : ClientState) : Option SessionData :=
  st.sessionData

/-- `getAllocations()`: returns the cached allocations. -/
def ClientState.getAllocations (st : ClientState) : List Allocation :=
  st.currentAllocations

/-- Look up the handler list for an event in the registry
(`eventHandlers.get(event)`), defaulting to the empty list. -/
def handlersOf (registry : List (String × List Nat)) (event : String) : List Nat :=
  match registry with
  | [] => []
  | (e, hs) :: rest => if e = event then hs else handlersOf rest event

/-- `on(event, handler)`: create the `Set` for the event if absent, then
`Set.add` the handler (a no-op when already present, else appended, since
a JS `Set` is insertion-ordered and duplicate-free). -/
def registryOn (registry : List (String × List Nat)) (event : String) (h : Nat) :
    List (String × List Nat) :=
  match registry with
  | [] => [(event, [h])]
  | (e, hs) :: rest =>
    if e = event then (e, if h ∈ hs then hs else hs ++ [h]) :: rest
    else (e, hs) :: registryOn rest event h

/-- `off(event, handler)` with a specific handler: `Set.delete` on the
event's handler set (the possibly-empty set stays in the `Map`). -/
def registryOffHandler (registry : List (String × List Nat)) (event : String) (h : Nat) :
    List (String × List Nat) :=
  match registry with
  | [] => []
  | (e, hs) :: rest =>
    if e = event then (e, hs.filter (fun x => x ≠ h)) :: rest
    else (e, hs) :: registryOffHandler rest event h

/-- `off(event)` with no handler: `Map.delete` of the whole event entry. -/
def registryOffAll (registry : List (String × List Nat)) (event : String) :
    List (String × List Nat) :=
  registry.filter (fun p => p.1 ≠ event)

/-- `sendMessageToWidget(message)`: bail out when no iframe content window
is available; queue the message when the widget is not ready unless it is
an `init` / `preview-init` message; otherwise post it. -/
def sendMessageToWidget (st : ClientState) (m : MessageFromParent) : ClientState :=
  if st.hasIframeCW = false then st
  else if st.isWidgetReady = false ∧ m.mtype ≠ "init" ∧ m.mtype ≠ "preview-init" then
    { st with pendingMessages := st.pendingMessages ++ [m] }
  else
    { st with sent := st.sent ++ [m] }

/-- One pass of the `processPendingMessages` while-loop, with fuel: while
the queue is nonempty and the widget is ready, shift the head and send it.
The fuel is instantiated with the queue length; while ready, a send never
re-queues, so this fully drains the loop. -/
def processPendingGo : Nat → ClientState → ClientState
  | 0, st => st
  | fuel + 1, st =>
    match st.pendingMessages with
    | [] => st
    | m :: rest =>
      if st.isWidgetReady then
        processPendingGo fuel (sendMessageToWidget { st with pendingMessages := rest } m)
      else st

/-- `processPendingMessages()`: drain the pending queue while ready. -/
def processPendingMessages (st : ClientState) : ClientState :=
  processPendingGo st.pendingMessages.length st

/-- `handleResize(data)`: update the iframe height and/or width styles,
each only when present. -/
def handleResize (st : ClientState) (w h : Option Nat) : ClientState :=
  if st.hasIframeCW = false then st
  else
    let st1 := match h with
      | some v => { st with styleHeight := some v }
      | none => st
    match w with
    | some v => { st1 with styleWidth := some v }
    | none => st1

/-- The final `emit(message.type, message.payload)` of the listener: record
one invocation for every handler currently registered for the event. -/
def emitTrace (st : ClientState) (event : String) : ClientState :=
  { st with invoked := st.invoked ++ (handlersOf st.eventHandlers event).map (fun h => (event, h)) }

/-- The message listener installed by `setupMessageListener`: drop messages
not coming from the owned iframe's content window, drop messages failing
`isWidgetMessage`, then run the `ready` / `resize` / `session-updated` /
`allocations-updated` updates in order and finally emit to user handlers.
A `session-updated` message with a null payload throws a `TypeError` when
`this.sessionData.allocations` is read; the listener's try/catch swallows
it after `sessionData` was already assigned, and `emit` is skipped. -/
def handleWidgetMessage (st : ClientState) (m : InboundMsg) : ClientState :=
  if st.hasIframeCW = false then st
  else if m.valid = false then st
  else if m.mtype = "session-updated" ∧ m.sessionData = none then
    { st with sessionData := none }
  else
    let st1 := if m.mtype = "ready" then
        processPendingMessages { st with isWidgetReady := true }
      else st
    let st2 := if m.mtype = "resize" then handleResize st1 m.width m.height else st1
    let st3 := if m.mtype = "session-updated" then
        match m.sessionData with
        | some sd => { st2 with sessionData := some sd,
                                currentAllocations := sd.allocations.getD [] }
        | none => st2
      else st2
    let st4 := if m.mtype = "allocations-updated" then
        { st3 with currentAllocations := m.allocations }
      else st3
    emitTrace st4 m.mtype

/-- `destroy()`: cancel the outstanding ready-wait timer, send a
best-effort `destroy` envelope if still connected and ready, detach the
iframe, remove the global message listener, and reset readiness and the
pending queue.  The event-handler registry is deliberately kept. -/
def destroy (st : ClientState) : ClientState :=
  let st1 := { st with readyTimeoutActive := false }
  let st2 := if st1.hasIframeCW = true ∧ st1.isWidgetReady = true then
      sendMessageToWidget st1 { mtype := "destroy" }
    else st1
  { st2 with hasIframeCW := false, messageListenerAttached := false,
             isWidgetReady := false, pendingMessages := [] }

/-- Modelled from the spec: `TIMING.DEFAULT_TIMEOUT_MS`, the shared default
timeout constant from `@ddc/shared` (not under `src/`); a positive number
of milliseconds — the "default window" after which waits reject. -/
def DEFAULT_TIMEOUT_MS : Nat := 10000

/-- The effective timeout of `waitFor`: `options?.timeout ||
TIMING.DEFAULT_TIMEOUT_MS` — an absent option, or the falsy value `0`,
yields the shared default. -/
def effectiveTimeout : Option Nat → Nat
  | none => DEFAULT_TIMEOUT_MS
  | some t => if t = 0 then DEFAULT_TIMEOUT_MS else t

/-- Outcome of the `waitFor` promise. -/
inductive WFOutcome where
  | resolvedWith (payload : String)
  | rejectedTimeout
deriving DecidableEq, Repr

/-- The closure state of one `waitFor(event, options)` call: whether the
`setTimeout` timer is still armed, whether the temporary handler is still
registered via `on`, the (at most once) settlement of the promise, and the
timer duration. -/
structure WaitForSt where
  timerActive : Bool
  handlerOn : Bool
  outcome : Option WFOutcome
  timeoutMs : Nat
deriving DecidableEq, Repr

/-- Entering `waitFor`: compute the effective timeout, arm the timer and
register the temporary handler; the promise is pending. -/
def waitForStart (options : Option Nat) : WaitForSt :=
  { timerActive := true, handlerOn := true, outcome := none,
    timeoutMs := effectiveTimeout options }

/-- An `emit` of the awaited event reaching the temporary handler: the
handler body runs only while the handler is registered — it clears the
timer, deregisters itself via `off`, and resolves the promise with the
emitted payload (a JS promise settles at most once). -/
def waitForEmit (w : WaitForSt) (payload : String) : WaitForSt :=
  if w.handlerOn then
    { timerActive := false, handlerOn := false,
      outcome := match w.outcome with
        | none => some (WFOutcome.resolvedWith payload)
        | some o => some o,
      timeoutMs := w.timeoutMs }
  else w

/-- The `setTimeout` callback of `waitFor`: runs only if the timer was not
cleared — it deregisters the temporary handler via `off` and rejects the
promise with a Timeout error. -/
def waitForTimerFire (w : WaitForSt) : WaitForSt :=
  if w.timerActive then
    { timerActive := false, handlerOn := false,
      outcome := match w.outcome with
        | none => some WFOutcome.rejectedTimeout
        | some o => some o,
      timeoutMs := w.timeoutMs }
  else w

/-- Outcome of the internal `waitForReady` promise (`mount` awaits it). -/
inductive RWOutcome where
  | resolvedReady (sessionId : String)
  | rejectedTimeout
deriving DecidableEq, Repr

/-- The closure state of one `waitForReady()` call: the ready-wait timer
(mirrored into `readyTimeoutId` on the client), the temporary `ready`
handler, and the promise settlement. -/
structure ReadyWait where
  timerActive : Bool
  handlerOn : Bool
  outcome : Option RWOutcome
deriving DecidableEq, Repr

/-- Entering `waitForReady`: when the widget is already ready the promise
resolves immediately with the session id; otherwise the timeout timer is
armed, stored in `readyTimeoutId`, and a temporary `ready` handler is
registered — the promise is pending. -/
def waitForReadyStart (alreadyReady : Bool) (sessionId : String) : ReadyWait :=
  if alreadyReady then
    { timerActive := false, handlerOn := false,
      outcome := some (RWOutcome.resolvedReady sessionId) }
  else
    { timerActive := true, handlerOn := true, outcome := none }

/-- The `readyHandler` closure, invoked when a `ready` event is emitted
while it is registered: `cleanup()` (clear the timer, null the stored id,
deregister the handler) then resolve with the reported session id. -/
def readyWaitOnReady (w : ReadyWait) (sessionId : String) : ReadyWait :=
  if w.handlerOn then
    { timerActive := false, handlerOn := false,
      outcome := match w.outcome with
        | none => some (RWOutcome.resolvedReady sessionId)
        | some o => some o }
  else w

/-- The ready-wait `setTimeout` callback: runs only if the timer was not
cleared — `cleanup()` then reject with a Timeout error. -/
def readyWaitOnTimeout (w : ReadyWait) : ReadyWait :=
  if w.timerActive then
    { timerActive := false, handlerOn := false,
      outcome := match w.outcome with
        | none => some RWOutcome.rejectedTimeout
        | some o => some o }
  else w

/-- The effect of `destroy()` on an in-flight `waitForReady`:
`clearTimeout(this.readyTimeoutId)` disarms the pending timer, so its
callback never runs. -/
def readyWaitOnDestroy (w : ReadyWait) : ReadyWait :=
  { w with timerActive := false }

/-- The observable behavior of one handler invocation: return normally or
throw. -/
inductive HandlerOutcome where
  | ok
  | threw (msg : String)
deriving DecidableEq, Repr

/-- One iteration of the `forEach` in `emit`: `try { handler(data) } catch
(error) { this.log(...) }` — the invocation happens, and a thrown error is
caught and logged, never rethrown. -/
def emitOne (beh : Nat → HandlerOutcome) (h : Nat) : List String :=
  match beh h with
  | HandlerOutcome.ok => []
  | HandlerOutcome.threw msg => [msg]

/-- `emit(event, data)` over the handler list for the event: invoke every
handler in insertion order, collecting the invoked handlers and the logged
(caught) errors.  The return type is a plain pair: no error escapes to the
caller of `emit`. -/
def emitHandlers (beh : Nat → HandlerOutcome) : List Nat → List Nat × List String
  | [] => ([], [])
  | h :: rest =>
    let logs := emitOne beh h
    let r := emitHandlers beh rest
    (h :: r.1, logs ++ r.2)

/-- A JavaScript value passed where a string is expected: absent
(`undefined` / `null`), some non-string runtime value, or a string. -/
inductive JSStringField where
  | absent
  | nonString
  | str (s : String)
deriving DecidableEq, Repr

/-- `!v || typeof v !== "string" || v.trim() === ""`: the validation
predicate the `WidgetClient` constructor applies to `sessionId` and
`secret`. -/
def invalidStringField : JSStringField → Bool
  | JSStringField.absent => true
  | JSStringField.nonString => true
  | JSStringField.str s => s = "" || s.trim = ""

/-- Constructor input (`WidgetConfig`), with the two credential fields as
arbitrary JS values so that missing and mistyped inputs are expressible. -/
structure WidgetConfigIn where
  sessionId : JSStringField
  secret : JSStringField
  styleMode : Option String := none
deriving DecidableEq, Repr

/-- The string carried by a `str` field (only read after validation). -/
def JSStringField.stringValue : JSStringField → String
  | JSStringField.str s => s
  | _ => ""

/-- The client state produced by the `BaseWidgetClient` constructor: no
iframe yet, not ready, empty queue and caches, message listener attached
by `setupMessageListener`. -/
def initialClientState : ClientState :=
  { hasIframeCW := false, isWidgetReady := false, pendingMessages := [],
    sessionData := none, currentAllocations := [], eventHandlers := [],
    messageListenerAttached := true, readyTimeoutActive := false,
    styleWidth := none, styleHeight := none, sent := [], invoked := [] }

/-- A constructed live widget instance. -/
structure WidgetClientObj where
  base : ClientState
  sessionId : String
  secret : String
deriving DecidableEq, Repr

/-- The `WidgetClient` constructor: the base constructor runs first, then
`sessionId` and `secret` are validated, each throwing `InvalidConfig`
synchronously on failure; on success the credentials are stored. -/
def WidgetClient.construct (config : WidgetConfigIn) : Except WErr WidgetClientObj :=
  let base := initialClientState
  if invalidStringField config.sessionId = true then
    Except.error (WErr.invalidConfig "sessionId must be a non-empty string")
  else if invalidStringField config.secret = true then
    Except.error (WErr.invalidConfig "secret must be a non-empty string")
  else
    Except.ok { base := base, sessionId := config.sessionId.stringValue,
                secret := config.secret.stringValue }

/-- `createWidget(config)`: `new WidgetClient(config)` — a constructor
throw propagates to the caller and no instance is returned. -/
def createWidget (config : WidgetConfigIn) : Except WErr WidgetClientObj :=
  WidgetClient.construct config

/-- Classifier for a construction result that failed with `InvalidConfig`
(hence returned no widget instance). -/
def isInvalidConfigError : Except WErr WidgetClientObj → Bool
  | Except.error (WErr.invalidConfig _) => true
  | _ => false

/-! ## Concrete sample states used to instantiate the theorems -/

/-- A mounted, not-yet-ready client holding one queued `refresh` command. -/
def stC1 : ClientState :=
  { initialClientState with hasIframeCW := true,
                            pendingMessages := [{ mtype := "refresh" }] }

/-- A well-formed inbound `ready` message. -/
def readyMsgC1 : InboundMsg :=
  { mtype := "ready", sessionId := "s1", version := "1.0" }

/-- A mounted, not-yet-ready client with one registered `ready` handler
(the `waitForReady` temporary handler, as handler id `0`). -/
def stC2 : ClientState :=
  { initialClientState with hasIframeCW := true,
                            eventHandlers := [("ready", [0])] }

/-- A well-formed inbound `ready` message reporting session `s1`. -/
def readyMsgC2 : InboundMsg :=
  { mtype := "ready", sessionId := "s1", version := "1.0" }

/-- A mounted ready client with cached session data and allocations. -/
def stC5 : ClientState :=
  { initialClientState with
      hasIframeCW := true, isWidgetReady := true,
      sessionData := some { stype := "add_on",
                            allocations := some [{ campaignIdentifier := "c1", amount := 300 }] },
      currentAllocations := [{ campaignIdentifier := "c1", amount := 300 }] }

/-- A well-formed inbound `allocations-updated` message. -/
def allocMsgC5 : InboundMsg :=
  { mtype := "allocations-updated",
    allocations := [{ campaignIdentifier := "c2", amount := 500 }],
    totalAmount := 500 }

/-- A mid-mount client: iframe created, not ready, ready-wait timer armed. -/
def stC7 : ClientState :=
  { initialClientState with hasIframeCW := true, readyTimeoutActive := true }

/-- A pending `waitForReady` closure: timer armed, handler registered,
promise unsettled. -/
def rwC7 : ReadyWait :=
  { timerActive := true, handlerOn := true, outcome := none }

/-- A config whose `sessionId` is missing. -/
def cfgC8 : WidgetConfigIn :=
  { sessionId := JSStringField.absent, secret := JSStringField.str "k" }

/-- A sample registry with one handler for event `x`. -/
def regC9 : List (String × List Nat) := [("x", [5])]

/-! ## Helper lemmas -/

theorem sendMessageToWidget_ready_post (st : ClientState) (m : MessageFromParent)
    (hcw : st.hasIframeCW = true) (hr : st.isWidgetReady = true) :
    sendMessageToWidget st m = { st with sent := st.sent ++ [m] } := by
  simp [sendMessageToWidget, hcw, hr]

theorem processPendingGo_drains (l : List MessageFromParent) (st : ClientState)
    (hcw : st.hasIframeCW = true) (hr : st.isWidgetReady = true)
    (hp : st.pendingMessages = l) :
    processPendingGo l.length st =
      { st with pendingMessages := [], sent := st.sent ++ l } := by
  induction l generalizing st with
  | nil =>
    simp only [List.length_nil, processPendingGo, List.append_nil]
    cases st
    simp_all
  | cons m rest ih =>
    simp only [List.length_cons, processPendingGo, hp, hr, if_true]
    rw [sendMessageToWidget_ready_post _ _ (by simp [hcw]) (by simp [hr])]
    rw [ih _ (by simp [hcw]) (by simp [hr]) (by simp)]
    simp

theorem processPendingMessages_drains (st : ClientState)
    (hcw : st.hasIframeCW = true) (hr : st.isWidgetReady = true) :
    processPendingMessages st =
      { st with pendingMessages := [], sent := st.sent ++ st.pendingMessages } := by
  exact processPendingGo_drains st.pendingMessages st hcw hr rfl

theorem sendMessageToWidget_preserves (st : ClientState) (m : MessageFromParent) :
    (sendMessageToWidget st m).eventHandlers = st.eventHandlers ∧
    (sendMessageToWidget st m).invoked = st.invoked ∧
    (sendMessageToWidget st m).isWidgetReady = st.isWidgetReady ∧
    (sendMessageToWidget st m).hasIframeCW = st.hasIframeCW ∧
    (sendMessageToWidget st m).sessionData = st.sessionData ∧
    (sendMessageToWidget st m).currentAllocations = st.currentAllocations := by
  unfold sendMessageToWidget
  split
  · simp
  · split <;> simp

theorem processPendingGo_preserves (n : Nat) (st : ClientState) :
    (processPendingGo n st).eventHandlers = st.eventHandlers ∧
    (processPendingGo n st).invoked = st.invoked ∧
    (processPendingGo n st).isWidgetReady = st.isWidgetReady ∧
    (processPendingGo n st).hasIframeCW = st.hasIframeCW ∧
    (processPendingGo n st).sessionData = st.sessionData ∧
    (processPendingGo n st).currentAllocations = st.currentAllocations := by
  induction n generalizing st with
  | zero => simp [processPendingGo]
  | succ k ih =>
    unfold processPendingGo
    split
    · simp
    · rename_i x m rest hm
      split
      · have h1 := ih (sendMessageToWidget { st with pendingMessages := rest } m)
        have h2 := sendMessageToWidget_preserves { st with pendingMessages := rest } m
        obtain ⟨a1, b1, c1, d1, e1, f1⟩ := h1
        obtain ⟨a2, b2, c2, d2, e2, f2⟩ := h2
        refine ⟨?_, ?_, ?_, ?_, ?_, ?_⟩
        · rw [a1, a2]
        · rw [b1, b2]
        · rw [c1, c2]
        · rw [d1, d2]
        · rw [e1, e2]
        · rw [f1, f2]
      · simp

theorem handleWidgetMessage_ready_eq (st : ClientState) (r : InboundMsg)
    (hcw : st.hasIframeCW = true) (hv : r.valid = true) (ht : r.mtype = "ready") :
    handleWidgetMessage st r =
      emitTrace (processPendingMessages { st with isWidgetReady := true }) "ready" := by
  simp [handleWidgetMessage, hcw, hv, ht]

/-- The registry invariant: every per-event handler list is duplicate-free
(it embeds a JS `Set`). -/
def registryWF (R : List (String × List Nat)) : Prop :=
  ∀ p ∈ R, p.2.Nodup

theorem registryOn_idem (R : List (String × List Nat)) (ev : String) (h : Nat) :
    registryOn (registryOn R ev h) ev h = registryOn R ev h := by
  induction R with
  | nil => simp [registryOn]
  | cons p rest ih =>
    obtain ⟨e, hs⟩ := p
    by_cases he : e = ev
    · subst he
      by_cases hmem : h ∈ hs <;> simp [registryOn, hmem]
    · simp [registryOn, he, ih]

theorem handlersOf_registryOn (R : List (String × List Nat)) (ev : String) (h : Nat) :
    handlersOf (registryOn R ev h) ev =
      if h ∈ handlersOf R ev then handlersOf R ev else handlersOf R ev ++ [h] := by
  induction R with
  | nil => simp [registryOn, handlersOf]
  | cons p rest ih =>
    obtain ⟨e, hs⟩ := p
    by_cases he : e = ev
    · subst he
      simp [registryOn, handlersOf]
    · simp [registryOn, handlersOf, he, ih]

theorem handlersOf_nodup (R : List (String × List Nat)) (ev : String)
    (hwf : registryWF R) : (handlersOf R ev).Nodup := by
  induction R with
  | nil => simp [handlersOf]
  | cons p rest ih =>
    obtain ⟨e, hs⟩ := p
    by_cases he : e = ev
    · subst he
      simpa [handlersOf] using hwf ⟨e, hs⟩ (by simp)
    · simp only [handlersOf, he, if_false]
      exact ih (fun q hq => hwf q (by simp [hq]))

theorem emitHandlers_fst (beh : Nat → HandlerOutcome) (hs : List Nat) :
    (emitHandlers beh hs).1 = hs := by
  induction hs with
  | nil => rfl
  | cons h rest ih => simp [emitHandlers, ih]

theorem emitHandlers_snd (beh : Nat → HandlerOutcome) (hs : List Nat) :
    (emitHandlers beh hs).2 = hs.filterMap (fun h =>
      match beh h with
      | HandlerOutcome.ok => none
      | HandlerOutcome.threw msg => some msg) := by
  induction hs with
  | nil => rfl
  | cons h rest ih =>
    simp only [emitHandlers, emitOne, List.filterMap_cons, ih]
    cases beh h <;> simp

/-! ## Claim theorems -/

/-- C1: an outbound command whose type is neither `init` nor
`preview-init`, issued while the transport is not ready, is not sent but
appended to the pending-message queue; and processing an inbound `ready`
message flushes the whole queue onto the send trace in the exact FIFO
order it was built, leaving the queue empty — so no such command is ever
sent before readiness. -/
theorem pending_commands_buffered_then_flushed_fifo
    (st : ClientState) (m : MessageFromParent) (r : InboundMsg)
    (hcw : st.hasIframeCW = true) (hnr : st.isWidgetReady = false)
    (hm1 : m.mtype ≠ "init") (hm2 : m.mtype ≠ "preview-init")
    (hv : r.valid = true) (ht : r.mtype = "ready") :
    sendMessageToWidget st m =
      { st with pendingMessages := st.pendingMessages ++ [m] } ∧
    (handleWidgetMessage st r).sent = st.sent ++ st.pendingMessages ∧
    (handleWidgetMessage st r).pendingMessages = [] := by
  refine ⟨by simp [sendMessageToWidget, hcw, hnr, hm1, hm2], ?_, ?_⟩ <;>
  · rw [handleWidgetMessage_ready_eq st r hcw hv ht,
        processPendingMessages_drains _ (by simp [hcw]) (by simp)]
    simp [emitTrace]

/-- C1 witness: a queued `refresh` command on a not-ready client is
buffered, and a `ready` message flushes the queue. -/
theorem pending_commands_buffered_then_flushed_fifo_witness :
    (stC1.isWidgetReady = false ∧
     sendMessageToWidget stC1 { mtype := "refresh" } =
       { stC1 with pendingMessages := stC1.pendingMessages ++ [{ mtype := "refresh" }] }) ∧
    (handleWidgetMessage stC1 readyMsgC1).sent = stC1.sent ++ stC1.pendingMessages ∧
    (handleWidgetMessage stC1 readyMsgC1).pendingMessages = [] := by
  have h := pending_commands_buffered_then_flushed_fifo stC1 { mtype := "refresh" }
    readyMsgC1 rfl rfl (by decide) (by decide) rfl rfl
  exact ⟨⟨rfl, h.1⟩, h.2.1, h.2.2⟩

/-- C2: before readiness the `waitForReady` promise backing `mount()` is
pending; processing an inbound `ready` message sets the readiness flag
(so `isReady()` returns true) and invokes the registered temporary
`ready` handler, which resolves the promise; on the timeout path with no
`ready` observed, the promise rejects with a Timeout error. -/
theorem mount_resolves_on_ready_or_times_out
    (st : ClientState) (r : InboundMsg) (hid : Nat) (sid : String)
    (hcw : st.hasIframeCW = true) (hnr : st.isWidgetReady = false)
    (hv : r.valid = true) (ht : r.mtype = "ready")
    (hreg : hid ∈ handlersOf st.eventHandlers "ready") :
    (waitForReadyStart st.isWidgetReady sid).outcome = none ∧
    (handleWidgetMessage st r).isReady = true ∧
    ("ready", hid) ∈ (handleWidgetMessage st r).invoked ∧
    (readyWaitOnReady (waitForReadyStart st.isWidgetReady sid) r.sessionId).outcome
      = some (RWOutcome.resolvedReady r.sessionId) ∧
    (readyWaitOnTimeout (waitForReadyStart st.isWidgetReady sid)).outcome
      = some RWOutcome.rejectedTimeout := by
  rw [handleWidgetMessage_ready_eq st r hcw hv ht]
  have hD := processPendingGo_preserves
    ({ st with isWidgetReady := true }).pendingMessages.length
    { st with isWidgetReady := true }
  refine ⟨by simp [waitForReadyStart, hnr], ?_, ?_,
    by simp [waitForReadyStart, readyWaitOnReady, hnr],
    by simp [waitForReadyStart, readyWaitOnTimeout, hnr]⟩
  · simp only [ClientState.isReady, emitTrace, processPendingMessages]
    rw [hD.2.2.1]
  · simp only [emitTrace, processPendingMessages, List.mem_append, List.mem_map]
    rw [hD.2.1, hD.1]
    right
    exact ⟨hid, hreg, rfl⟩

/-- C2 witness: a client with the temporary `ready` handler registered,
receiving a `ready` message. -/
theorem mount_resolves_on_ready_or_times_out_witness :
    (stC2.isWidgetReady = false ∧ 0 ∈ handlersOf stC2.eventHandlers "ready") ∧
    (waitForReadyStart stC2.isWidgetReady "s1").outcome = none ∧
    (handleWidgetMessage stC2 readyMsgC2).isReady = true ∧
    ("ready", 0) ∈ (handleWidgetMessage stC2 readyMsgC2).invoked ∧
    (readyWaitOnReady (waitForReadyStart stC2.isWidgetReady "s1") readyMsgC2.sessionId).outcome
      = some (RWOutcome.resolvedReady readyMsgC2.sessionId) ∧
    (readyWaitOnTimeout (waitForReadyStart stC2.isWidgetReady "s1")).outcome
      = some RWOutcome.rejectedTimeout := by
  have h := mount_resolves_on_ready_or_times_out stC2 readyMsgC2 0 "s1"
    rfl rfl rfl rfl (by decide)
  exact ⟨⟨rfl, by decide⟩, h⟩

/-- C3: `waitFor` resolves with exactly the payload of the next emission
of the event and deregisters its temporary handler, so a second emission
neither re-resolves nor changes the already-settled promise; the
temporary handler is also deregistered on the timeout path. -/
theorem waitFor_resolves_once_and_deregisters (options : Option Nat) (p q : String) :
    waitForEmit (waitForStart options) p =
      { timerActive := false, handlerOn := false,
        outcome := some (WFOutcome.resolvedWith p),
        timeoutMs := effectiveTimeout options } ∧
    waitForEmit (waitForEmit (waitForStart options) p) q =
      waitForEmit (waitForStart options) p ∧
    (waitForTimerFire (waitForStart options)).handlerOn = false := by
  refine ⟨?_, ?_, ?_⟩ <;> simp [waitForStart, waitForEmit, waitForTimerFire]

/-- C4: `emit` invokes every registered handler for the event in order,
whatever each handler's behavior; a handler that throws is caught — its
error is collected in the log component of the result, and `emit` returns
normally, so the error never propagates to the caller. -/
theorem emit_invokes_all_handlers_despite_throws
    (beh : Nat → HandlerOutcome) (handlers : List Nat) :
    (emitHandlers beh handlers).1 = handlers ∧
    (emitHandlers beh handlers).2 = handlers.filterMap (fun h =>
      match beh h with
      | HandlerOutcome.ok => none
      | HandlerOutcome.threw msg => some msg) :=
  ⟨emitHandlers_fst beh handlers, emitHandlers_snd beh handlers⟩

/-- C5: processing a well-formed `allocations-updated` message replaces
the cached allocations returned by `getAllocations()` with the message's
`allocations` field, while the cached session data returned by
`getSessionData()` is unchanged. -/
theorem allocations_updated_replaces_only_allocations
    (st : ClientState) (m : InboundMsg)
    (hcw : st.hasIframeCW = true) (hv : m.valid = true)
    (ht : m.mtype = "allocations-updated") :
    (handleWidgetMessage st m).getAllocations = m.allocations ∧
    (handleWidgetMessage st m).getSessionData = st.getSessionData := by
  simp [handleWidgetMessage, hcw, hv, ht, emitTrace,
        ClientState.getAllocations, ClientState.getSessionData]

/-- C5 witness: an `allocations-updated` message on a client with cached
session data. -/
theorem allocations_updated_replaces_only_allocations_witness :
    (stC5.hasIframeCW = true ∧ allocMsgC5.mtype = "allocations-updated") ∧
    (handleWidgetMessage stC5 allocMsgC5).getAllocations = allocMsgC5.allocations ∧
    (handleWidgetMessage stC5 allocMsgC5).getSessionData = stC5.getSessionData := by
  exact ⟨⟨rfl, rfl⟩,
    allocations_updated_replaces_only_allocations stC5 allocMsgC5 rfl rfl rfl⟩

/-- C6: after `destroy()` the readiness flag is false and the pending
queue is empty, while the event-handler registry is exactly what it was
before the destroy. -/
theorem destroy_resets_state_keeps_handlers (st : ClientState) :
    (destroy st).isReady = false ∧
    (destroy st).pendingMessages = [] ∧
    (destroy st).eventHandlers = st.eventHandlers := by
  unfold destroy
  by_cases h1 : st.hasIframeCW = true <;> by_cases h2 : st.isWidgetReady = true <;>
    simp [h1, h2, sendMessageToWidget, ClientState.isReady]

/-- C7: `destroy()` disarms the ready-wait timer (both on the client state
and for the in-flight `waitForReady` closure), after which the timeout
callback is a no-op: a pending mount promise is never rejected with a
Timeout error after the destroy. -/
theorem destroy_cancels_ready_timeout
    (st : ClientState) (w : ReadyWait) (hpending : w.outcome = none) :
    (destroy st).readyTimeoutActive = false ∧
    (readyWaitOnDestroy w).timerActive = false ∧
    readyWaitOnTimeout (readyWaitOnDestroy w) = readyWaitOnDestroy w ∧
    (readyWaitOnTimeout (readyWaitOnDestroy w)).outcome ≠ some RWOutcome.rejectedTimeout := by
  refine ⟨?_, rfl, ?_, ?_⟩
  · unfold destroy
    by_cases h1 : st.hasIframeCW = true <;> by_cases h2 : st.isWidgetReady = true <;>
      simp [h1, h2, sendMessageToWidget]
  · simp [readyWaitOnTimeout, readyWaitOnDestroy]
  · simp [readyWaitOnTimeout, readyWaitOnDestroy, hpending]

/-- C7 witness: destroying a mid-mount client with an armed timer and a
pending ready-wait. -/
theorem destroy_cancels_ready_timeout_witness :
    (rwC7.outcome = none) ∧
    (destroy stC7).readyTimeoutActive = false ∧
    (readyWaitOnDestroy rwC7).timerActive = false ∧
    readyWaitOnTimeout (readyWaitOnDestroy rwC7) = readyWaitOnDestroy rwC7 ∧
    (readyWaitOnTimeout (readyWaitOnDestroy rwC7)).outcome ≠ some RWOutcome.rejectedTimeout :=
  ⟨rfl, destroy_cancels_ready_timeout stC7 rwC7 rfl⟩

/-- C8: constructing a live widget with a `sessionId` or `secret` that is
missing, not a string, empty, or whitespace-only makes `createWidget`
fail synchronously with an `InvalidConfig` error, returning no widget
instance. -/
theorem createWidget_invalid_config_fails
    (config : WidgetConfigIn)
    (h : invalidStringField config.sessionId = true ∨
         invalidStringField config.secret = true) :
    isInvalidConfigError (createWidget config) = true := by
  unfold createWidget WidgetClient.construct
  rcases h with h1 | h2
  · simp [h1, isInvalidConfigError]
  · by_cases h1 : invalidStringField config.sessionId = true <;>
      simp [h1, h2, isInvalidConfigError]

/-- C8 witness: a missing `sessionId`. -/
theorem createWidget_invalid_config_fails_witness :
    invalidStringField cfgC8.sessionId = true ∧
    isInvalidConfigError (createWidget cfgC8) = true :=
  ⟨rfl, createWidget_invalid_config_fails cfgC8 (Or.inl rfl)⟩

/-- C9: registering the same handler twice for the same event leaves the
registry exactly as registering it once, and an `emit` of that event then
invokes the handler exactly once (for any duplicate-free registry, as
maintained by the `Set`-based `on`/`off`). -/
theorem on_idempotent_and_emit_invokes_once
    (R : List (String × List Nat)) (ev : String) (h : Nat)
    (beh : Nat → HandlerOutcome) (hwf : registryWF R) :
    registryOn (registryOn R ev h) ev h = registryOn R ev h ∧
    (emitHandlers beh (handlersOf (registryOn R ev h) ev)).1.count h = 1 := by
  refine ⟨registryOn_idem R ev h, ?_⟩
  rw [emitHandlers_fst, handlersOf_registryOn]
  have hnd := handlersOf_nodup R ev hwf
  by_cases hmem : h ∈ handlersOf R ev
  · simp only [hmem, if_true]
    exact List.count_eq_one_of_mem hnd hmem
  · simp only [hmem, if_false]
    simp [List.count_append, List.count_eq_zero.mpr hmem]

/-- C9 witness: registering handler `7` twice on a registry holding
handler `5` for event `x`. -/
theorem on_idempotent_and_emit_invokes_once_witness :
    registryWF regC9 ∧
    registryOn (registryOn regC9 "x" 7) "x" 7 = registryOn regC9 "x" 7 ∧
    (emitHandlers (fun _ => HandlerOutcome.ok)
      (handlersOf (registryOn regC9 "x" 7) "x")).1.count 7 = 1 := by
  have hwf : registryWF regC9 := by
    intro p hp
    simp only [regC9, List.mem_singleton] at hp
    subst hp
    simp
  exact ⟨hwf, on_idempotent_and_emit_invokes_once regC9 "x" 7 (fun _ => HandlerOutcome.ok) hwf⟩

/-- C10: `waitFor` with an explicit timeout of `0` behaves exactly as
`waitFor` with no timeout option: the falsy zero is replaced by the shared
default timeout constant, which is positive, so the promise does not
reject immediately. -/
theorem waitFor_zero_timeout_uses_default :
    waitForStart (some 0) = waitForStart none ∧
    effectiveTimeout (some 0) = DEFAULT_TIMEOUT_MS ∧
    0 < DEFAULT_TIMEOUT_MS := by
  refine ⟨?_, rfl, by decide⟩
  simp [waitForStart, effectiveTimeout]
